import Mathlib

/-
Verification of the InsForge VS Code extension core (auth token lifecycle,
OAuth callback handling, MCP install/verify loop, and the per-project MCP
status reconciler) via a shallow embedding of the TypeScript source.

Conventions for the embedding:
- JavaScript string truthiness (empty string is falsy) is modelled by
  `truthyStr`; number truthiness (0 is falsy) by `truthyInt`.
- `globalState` / `secrets` storage is modelled as explicit record state.
- Network and filesystem effects are oracle parameters; timers, process
  events and HTTP callbacks become explicit event sequences folded over a
  step function.
-/

/-- JS truthiness for an optional string: `null`/`undefined` and `""` are falsy. -/
def truthyStr : Option String → Bool
  | some s => s ≠ ""
  | none => false

/-- JS truthiness for an optional number: `null`/`undefined` and `0` are falsy. -/
def truthyInt : Option Int → Bool
  | some n => n ≠ 0
  | none => false

/-- JS `a || d` for an optional string `a` with string default `d`. -/
def jsOrStr (o : Option String) (d : String) : String :=
  match o with
  | some s => if s = "" then d else s
  | none => d

/- ## Status Reconciler (src/views/projectsViewProvider.ts) -/

/-- MCP installation status (`McpStatus` in src/commands/installMcp.ts). -/
inductive McpStatus
  | none
  | verifying
  | verified
  | failed
deriving DecidableEq, Repr

/-- Per-project persisted MCP status entry (`McpProjectStatus`). -/
structure McpProjectStatus where
  projectId : String
  status : McpStatus
  tools : Option (List String)
  error : Option String
  lastUpdated : Int
deriving DecidableEq, Repr

/-- The persisted status record keyed by project id (`insforge.mcpStatus` in globalState). -/
def StatusMap : Type := String → Option McpProjectStatus

/-- `updateMcpStatus`: write the entry for `projectId`, leaving other keys unchanged. -/
def updateMcpStatus (m : StatusMap) (projectId : String) (status : McpStatus)
    (tools : Option (List String)) (error : Option String) (now : Int) : StatusMap :=
  fun id =>
    if id = projectId then
      some { projectId := projectId, status := status, tools := tools,
             error := error, lastUpdated := now }
    else m id

/-- `clearOtherVerifiedStatuses`: demote every entry other than `currentProjectId`
whose status is `verified` to `none`, dropping its tools. -/
def clearOtherVerifiedStatuses (m : StatusMap) (currentProjectId : String) : StatusMap :=
  fun id =>
    match m id with
    | some s =>
        if id ≠ currentProjectId ∧ s.status = McpStatus.verified then
          some { s with status := McpStatus.none, tools := Option.none }
        else some s
    | Option.none => Option.none

/-- `markMcpVerifying`. -/
def markMcpVerifying (m : StatusMap) (projectId : String) (now : Int) : StatusMap :=
  updateMcpStatus m projectId McpStatus.verifying Option.none Option.none now

/-- `markMcpVerified`: first demote other verified entries, then write the new entry. -/
def markMcpVerified (m : StatusMap) (projectId : String) (tools : List String) (now : Int) :
    StatusMap :=
  updateMcpStatus (clearOtherVerifiedStatuses m projectId) projectId McpStatus.verified
    (some tools) Option.none now

/-- `markMcpFailed`. -/
def markMcpFailed (m : StatusMap) (projectId : String) (error : String) (now : Int) : StatusMap :=
  updateMcpStatus m projectId McpStatus.failed Option.none (some error) now

/-- `getMcpStatus`: the stored status, defaulting to `none` for absent entries. -/
def getStatus (m : StatusMap) (id : String) : McpStatus :=
  match m id with
  | some s => s.status
  | Option.none => McpStatus.none

/-- The single-verified invariant: at most one project id has status `verified`. -/
def atMostOneVerified (m : StatusMap) : Prop :=
  ∀ p q, getStatus m p = McpStatus.verified → getStatus m q = McpStatus.verified → p = q

/-- The empty persisted status record. -/
def emptyStatusMap : StatusMap := fun _ => Option.none

/- ## OAuth callback handling (src/auth/authProvider.ts, startCallbackServer) -/

/-- Outcome of one `/callback` request in `startCallbackServer`: the three
rejection branches each close the server and resolve `null`; only the fourth
branch invokes `exchangeCodeForTokens`. -/
inductive CallbackOutcome
  | providerError (e : String)
  | stateMismatch
  | missingCode
  | exchangeCode (code : String)
deriving DecidableEq, Repr

/-- The branch structure of the `/callback` handler: provider `error` first
(JS truthiness), then strict state comparison, then `code` presence. -/
def handleCallback (state : String) (code returnedState error : Option String) :
    CallbackOutcome :=
  if truthyStr error then CallbackOutcome.providerError (error.getD "")
  else if returnedState ≠ some state then CallbackOutcome.stateMismatch
  else if ¬ truthyStr code then CallbackOutcome.missingCode
  else CallbackOutcome.exchangeCode (code.getD "")

/-- Whether the callback outcome invokes the code-for-token exchange. -/
def invokesTokenExchange : CallbackOutcome → Bool
  | CallbackOutcome.exchangeCode _ => true
  | _ => false

/-- Whether the callback outcome resolves the login promise to `null`. -/
def resolvesNull : CallbackOutcome → Bool
  | CallbackOutcome.exchangeCode _ => false
  | _ => true

/- ## Token lifecycle (src/auth/authProvider.ts) -/

/-- User profile stored in globalState (`UserData`). -/
structure UserData where
  id : String
  email : String
  name : Option String
deriving DecidableEq, Repr

/-- Durable auth state: the two secrets, the stored profile, and the stored
expiry timestamp (`insforge.authToken`, `insforge.refreshToken`,
`insforge.userData`, `insforge.tokenExpiry`). -/
structure AuthState where
  accessToken : Option String
  refreshToken : Option String
  userData : Option UserData
  tokenExpiry : Option Int
deriving DecidableEq, Repr

/-- Token endpoint JSON response (`TokenResponse`). -/
structure TokenResponse where
  access_token : String
  refresh_token : Option String
  expires_in : Option Int
  error : Option String
deriving DecidableEq, Repr

/-- Outcome of one `fetch` of the token endpoint: non-ok HTTP status, a parsed
JSON body, or a thrown transport exception. -/
inductive FetchOutcome
  | httpError
  | ok (tokens : TokenResponse)
  | exception
deriving DecidableEq, Repr

/-- `clearAuth`: delete both secrets, the stored profile and the stored expiry. -/
def clearAuth (_st : AuthState) : AuthState :=
  { accessToken := Option.none, refreshToken := Option.none,
    userData := Option.none, tokenExpiry := Option.none }

/-- `logout`: deletes both secrets and the stored profile. The stored expiry
timestamp is not touched by this method (unlike `clearAuth`). -/
def logout (st : AuthState) : AuthState :=
  { st with accessToken := Option.none, refreshToken := Option.none,
            userData := Option.none }

/-- `isTokenExpired`: false when no expiry is stored (JS falsiness also treats a
stored `0` as absent); otherwise compare `Date.now()` against a 30s buffer. -/
def isTokenExpired (st : AuthState) (now : Int) : Bool :=
  match st.tokenExpiry with
  | Option.none => false
  | some expiry => if expiry = 0 then false else decide (now > expiry - 30000)

/-- `refreshAccessToken`: returns whether the refresh succeeded together with the
updated storage. On success the access token is always stored; the refresh token
only when the response carries a truthy one; the expiry only when the response
carries a truthy `expires_in`. All failure paths leave storage unchanged. -/
def refreshAccessToken (st : AuthState) (now : Int) (net : FetchOutcome) :
    Bool × AuthState :=
  match st.refreshToken with
  | Option.none => (false, st)
  | some _ =>
    match net with
    | FetchOutcome.httpError => (false, st)
    | FetchOutcome.exception => (false, st)
    | FetchOutcome.ok tokens =>
      if truthyStr tokens.error then (false, st)
      else
        let st1 := { st with accessToken := some tokens.access_token }
        let st2 := if truthyStr tokens.refresh_token then
                     { st1 with refreshToken := tokens.refresh_token }
                   else st1
        let st3 := if truthyInt tokens.expires_in then
                     { st2 with tokenExpiry := some (now + (tokens.expires_in.getD 0) * 1000) }
                   else st2
        (true, st3)

/-- `handleUnauthorized`: one refresh attempt; on failure clear everything. -/
def handleUnauthorized (st : AuthState) (now : Int) (net : FetchOutcome) :
    Bool × AuthState :=
  match refreshAccessToken st now net with
  | (true, st') => (true, st')
  | (false, st') => (false, clearAuth st')

/-- `isAuthenticated`: result, updated storage, and the number of
`refreshAccessToken` invocations performed. The `if (!token)` guard is a JS
truthiness check, so a stored empty-string token is treated as absent. -/
def isAuthenticated (st : AuthState) (now : Int) (net : FetchOutcome) :
    Bool × AuthState × Nat :=
  if truthyStr st.accessToken = false then (false, st, 0)
  else
    if isTokenExpired st now then
      match refreshAccessToken st now net with
      | (true, st') => (true, st', 1)
      | (false, st') => (false, clearAuth st', 1)
    else (true, st, 0)

/-- The fully cleared auth state. -/
def clearedAuthState : AuthState :=
  { accessToken := Option.none, refreshToken := Option.none,
    userData := Option.none, tokenExpiry := Option.none }

/- ## Logout and refresh update behaviour (claims C5 and C6) -/

/-- A concrete pre-logout state with all four fields populated. -/
def c5State : AuthState :=
  { accessToken := some "acc", refreshToken := some "ref",
    userData := some { id := "u1", email := "u@example.com", name := Option.none },
    tokenExpiry := some 12345 }

/-- A concrete state holding a refresh token and an old expiry. -/
def c6State : AuthState :=
  { accessToken := some "old", refreshToken := some "ref",
    userData := Option.none, tokenExpiry := some 1000 }

/-- A successful token-endpoint response that omits both the refresh token and
`expires_in`. -/
def c6Tokens : TokenResponse :=
  { access_token := "newtok", refresh_token := Option.none,
    expires_in := Option.none, error := Option.none }

/-- A reachable state with an empty-string access token (both store sites write
`tokens.access_token` unconditionally) and an already-expired stored expiry. -/
def c3State : AuthState :=
  { accessToken := some "", refreshToken := some "ref",
    userData := Option.none, tokenExpiry := some 100 }

/-- A reachable state with an empty-string access token stored and no expiry
timestamp stored. -/
def c10State : AuthState :=
  { accessToken := some "", refreshToken := some "ref",
    userData := Option.none, tokenExpiry := Option.none }

/- ## Authenticated Client (src/auth/authProvider.ts, authenticatedFetch) -/

/-- An HTTP response; `body` lets distinct responses be told apart. -/
structure HttpResponse where
  status : Int
  body : String
deriving DecidableEq, Repr

/-- The error thrown by `authenticatedFetch` (`new Error('UNAUTHORIZED')`). -/
inductive FetchError
  | unauthorized
deriving DecidableEq, Repr

/-- Instrumentation of one `authenticatedFetch` run: the bearer tokens attached
to the fetches performed (in order), the number of refresh attempts made by the
expiry pre-check, and the number made in response to a 401. -/
structure FetchTrace where
  bearerTokens : List String
  preRefreshes : Nat
  on401Refreshes : Nat
deriving DecidableEq, Repr

/-- The body of `authenticatedFetch` after the expiry pre-check: read the stored
token, throwing on a falsy one (`if (!token)` is a JS truthiness check, so a
stored empty string throws before any fetch), perform the fetch, and on a 401
run `handleUnauthorized` and either retry once with the newly stored token on
refresh success or throw with storage cleared on refresh failure. `resp1` and
`resp2` are the responses the network gives the first fetch and the retry;
`pre` counts pre-check refreshes for the trace. -/
def authenticatedFetchAfter (st1 : AuthState) (now : Int) (retryNet : FetchOutcome)
    (resp1 resp2 : HttpResponse) (pre : Nat) :
    Except FetchError HttpResponse × AuthState × FetchTrace :=
  if truthyStr st1.accessToken = false then
    (Except.error FetchError.unauthorized, st1,
      { bearerTokens := [], preRefreshes := pre, on401Refreshes := 0 })
  else
    let tok := st1.accessToken.getD ""
    if resp1.status = 401 then
      match handleUnauthorized st1 now retryNet with
      | (true, st2) =>
          (Except.ok resp2, st2,
            { bearerTokens := [tok, st2.accessToken.getD ""],
              preRefreshes := pre, on401Refreshes := 1 })
      | (false, st2) =>
          (Except.error FetchError.unauthorized, st2,
            { bearerTokens := [tok], preRefreshes := pre, on401Refreshes := 1 })
    else
      (Except.ok resp1, st1,
        { bearerTokens := [tok], preRefreshes := pre, on401Refreshes := 0 })

/-- `authenticatedFetch`: expiry pre-check (refresh, throwing on failure), then
the fetch/401-handling body. `preNet` is the token endpoint's answer to a
pre-check refresh, `retryNet` its answer to a 401-triggered refresh. -/
def authenticatedFetch (st0 : AuthState) (now : Int) (preNet retryNet : FetchOutcome)
    (resp1 resp2 : HttpResponse) :
    Except FetchError HttpResponse × AuthState × FetchTrace :=
  if isTokenExpired st0 now then
    match refreshAccessToken st0 now preNet with
    | (true, st1) => authenticatedFetchAfter st1 now retryNet resp1 resp2 1
    | (false, st1) =>
        (Except.error FetchError.unauthorized, st1,
          { bearerTokens := [], preRefreshes := 1, on401Refreshes := 0 })
  else authenticatedFetchAfter st0 now retryNet resp1 resp2 0

/- ## Verification retry loop (src/commands/installMcp.ts, verifyFromConfig) -/

/-- Credentials extracted from a client's MCP config file. -/
structure Credentials where
  apiKey : String
  apiBaseUrl : String
deriving DecidableEq, Repr

/-- Result shape of `testMcpConnection` (src/utils/mcpVerifier.ts). -/
structure McpVerificationResult where
  success : Bool
  tools : Option (List String)
  error : Option String
deriving DecidableEq, Repr

/-- Result shape of `verifyFromConfig`. -/
structure VerifyOutcome where
  success : Bool
  tools : Option (List String)
  error : Option String
deriving DecidableEq, Repr

/-- Instrumented loop state of `verifyFromConfig`: the two monotonic flags, the
running `lastError`, the sleeps performed (one per attempt, before it), and how
many times `testMcpConnection` was invoked. -/
structure LoopState where
  configFileFound : Bool
  credentialsFound : Bool
  lastError : String
  sleeps : List Nat
  connTests : Nat
deriving DecidableEq, Repr

/-- JS template interpolation of a possibly-null path. -/
def showPath : Option String → String
  | some p => p
  | Option.none => "null"

/-- The diagnostic built while the config file has never been seen. -/
def notFoundMsg (configPath : Option String) : String :=
  "Config file not found at: " ++ showPath configPath

/-- The attempt loop of `verifyFromConfig`. `attempt` is the 1-based attempt
number fed to the filesystem/connection oracles; `remaining` the attempts left.
Each iteration sleeps `delayMs`, records whether the config file exists, tries
to extract credentials, and on credentials runs `testMcpConnection`, stopping
early on a successful result that carries a tools array. -/
def verifyAttempts (configPath : Option String) (fileExists : Nat → Bool)
    (readCreds : Nat → Option Credentials) (connTest : Nat → McpVerificationResult)
    (delayMs : Nat) : Nat → Nat → LoopState → Option (List String) × LoopState
  | _, 0, s => (Option.none, s)
  | attempt, r + 1, s =>
    let s1 := { s with sleeps := s.sleeps ++ [delayMs] }
    let s2 := if configPath.isSome ∧ fileExists attempt then
                { s1 with configFileFound := true }
              else s1
    match readCreds attempt with
    | Option.none =>
      let le := if s2.configFileFound then
          "Config file found but InsForge credentials missing at: " ++ showPath configPath
        else notFoundMsg configPath
      let s3 := { s2 with lastError := le }
      verifyAttempts configPath fileExists readCreds connTest delayMs (attempt + 1) r s3
    | some _ =>
      let s3 := { s2 with credentialsFound := true }
      let result := connTest attempt
      let s4 := { s3 with connTests := s3.connTests + 1 }
      if result.success = true ∧ result.tools.isSome then
        (result.tools, s4)
      else
        let s5 := { s4 with lastError := jsOrStr result.error "Connection test failed" }
        verifyAttempts configPath fileExists readCreds connTest delayMs (attempt + 1) r s5

/-- The initial loop state. -/
def initLoopState : LoopState :=
  { configFileFound := false, credentialsFound := false, lastError := "",
    sleeps := [], connTests := 0 }

/-- `verifyFromConfig`: the codex exemption, the attempt loop, and the final
classification (file never found, file found but credentials never found, or
credentials found but the connection kept failing). -/
def verifyFromConfig (clientId : String) (configPath : Option String)
    (fileExists : Nat → Bool) (readCreds : Nat → Option Credentials)
    (connTest : Nat → McpVerificationResult) (maxAttempts delayMs : Nat) :
    VerifyOutcome × LoopState :=
  if clientId = "codex" then
    ({ success := true, tools := some ["(View in Codex CLI)"], error := Option.none },
     initLoopState)
  else
    match verifyAttempts configPath fileExists readCreds connTest delayMs 1 maxAttempts
        initLoopState with
    | (some tools, s) =>
        ({ success := true, tools := some tools, error := Option.none }, s)
    | (Option.none, s) =>
      if s.configFileFound = false then
        ({ success := false, tools := Option.none,
           error := some (notFoundMsg configPath
             ++ ". The installer may have written to a different location.") }, s)
      else if s.credentialsFound = false then
        ({ success := false, tools := Option.none,
           error := some ("Config file exists but InsForge credentials not found. Check if \x27insforge\x27 server is configured in "
             ++ showPath configPath) }, s)
      else
        ({ success := false, tools := Option.none,
           error := some ("Config found but MCP connection failed: " ++ s.lastError) }, s)

/- ## Connection Verifier single-resolve guard (src/utils/mcpVerifier.ts) -/

/-- Classification of one buffered stdout line, standing for `JSON.parse` plus
the two checks of the stdout handler: a `result.tools` array (with the mapped
tool names), an `error` envelope (with its optional `message`), or anything
else (invalid JSON or an unrecognised message). -/
inductive LineClass
  | toolsResult (names : List String)
  | errorResult (message : Option String)
  | otherLine
deriving DecidableEq, Repr

/-- The asynchronous events `testMcpConnection` reacts to. -/
inductive McpEvent
  | stdoutData (s : String)
  | stderrData (s : String)
  | procError (message : String)
  | procExit (code : Option Int)
  | timeoutFire
deriving DecidableEq, Repr

/-- The closed-over state of one `testMcpConnection` run: the stdout buffer,
the `resolved` guard, the value the promise was resolved with (if any), and how
many times `resolve` has been called. -/
structure VerifierState where
  buffer : String
  resolved : Bool
  result : Option McpVerificationResult
  resolveCount : Nat
deriving DecidableEq, Repr

/-- A guarded `resolve(r)`: a no-op once `resolved` is set. -/
def vResolve (st : VerifierState) (r : McpVerificationResult) : VerifierState :=
  if st.resolved then st
  else { st with resolved := true, result := some r, resolveCount := st.resolveCount + 1 }

/-- Resolve when the scan produced an actionable result, else leave the state. -/
def maybeResolve (st : VerifierState) (o : Option McpVerificationResult) : VerifierState :=
  match o with
  | some r => vResolve st r
  | Option.none => st

/-- Scan the buffered lines for the first actionable JSON-RPC message, exactly
as the stdout handler's `for`/`return` does. -/
def scanLines (parseLine : String → LineClass) : List String → Option McpVerificationResult
  | [] => Option.none
  | l :: ls =>
    match parseLine l with
    | LineClass.toolsResult names =>
        some { success := true, tools := some names, error := Option.none }
    | LineClass.errorResult message =>
        some { success := false, tools := Option.none,
               error := some (jsOrStr message "Unknown error") }
    | LineClass.otherLine => scanLines parseLine ls

/-- Substring test used for the stderr early-failure heuristic. -/
def containsSub (s pat : String) : Bool :=
    (s.splitOn pat).length ≥ 2

/-- The stderr handler's condition: case-insensitive "error" or "failed". -/
def stderrSignalsError (s : String) : Bool :=
  containsSub s.toLower "error" || containsSub s.toLower "failed"

/-- Render an exit code the way the template literal does (`null` for a missing
code). -/
def showExit : Option Int → String
  | some n => toString n
  | Option.none => "null"

/-- One event-handler step of `testMcpConnection`. Every resolution site is the
guarded `vResolve`; the stdout handler first appends to the buffer, re-splits
the whole buffer on newlines, drops blank lines, and acts on the first
actionable line; the exit handler only resolves on a non-zero (or missing)
code; the timeout resolves with the timeout error. -/
def testMcpConnectionStep (parseLine : String → LineClass) (st : VerifierState)
    (e : McpEvent) : VerifierState :=
  match e with
  | McpEvent.stdoutData s =>
    let st1 := { st with buffer := st.buffer ++ s }
    maybeResolve st1
      (scanLines parseLine ((st1.buffer.splitOn "\n").filter (fun l => l.trim ≠ "")))
  | McpEvent.stderrData s =>
    if stderrSignalsError s then
      vResolve st { success := false, tools := Option.none, error := some s.trim }
    else st
  | McpEvent.procError message =>
    vResolve st { success := false, tools := Option.none,
                  error := some ("Process error: " ++ message) }
  | McpEvent.procExit code =>
    if code ≠ some 0 then
      vResolve st { success := false, tools := Option.none,
                    error := some ("Process exited with code " ++ showExit code) }
    else st
  | McpEvent.timeoutFire =>
    vResolve st { success := false, tools := Option.none,
                  error := some "Connection timeout" }

/-- The state at the start of a `testMcpConnection` run. -/
def initVerifierState : VerifierState :=
  { buffer := "", resolved := false, result := Option.none, resolveCount := 0 }

/-- A whole run: fold the handlers over the event sequence. -/
def testMcpConnectionRun (parseLine : String → LineClass) (es : List McpEvent) :
    VerifierState :=
  es.foldl (testMcpConnectionStep parseLine) initVerifierState

/- ## Installer Runner (src/commands/installMcp.ts, runInstaller) -/

/-- `InstallerResult`: produced per install attempt. -/
structure InstallerResult where
  success : Bool
  exitCode : Option Int
  stdout : String
  stderr : String
  error : Option String
deriving DecidableEq, Repr

/-- The asynchronous events `runInstaller` reacts to: output data, a spawn
error, process close, and the cancellation callback firing. -/
inductive InstallerEvent
  | stdoutData (s : String)
  | stderrData (s : String)
  | procError (message : String)
  | procClose (code : Option Int)
  | cancelFire
deriving DecidableEq, Repr

/-- The state of one `runInstaller` promise: the accumulated output streams and
the value of the first `resolve` call, if any (later calls are no-ops by
promise semantics). -/
structure InstallerState where
  stdout : String
  stderr : String
  resolved : Option InstallerResult
deriving DecidableEq, Repr

/-- First-resolution-wins `resolve(r)`. -/
def iResolve (st : InstallerState) (r : InstallerResult) : InstallerState :=
  match st.resolved with
  | some _ => st
  | Option.none => { st with resolved := some r }

/-- One event-handler step of `runInstaller`: data handlers append (even after
resolution — the listeners stay attached); spawn error and cancellation resolve
a failure with no exit code; close resolves with `success := (code === 0)` and
no `error` field; the cancellation handler kills the process and resolves the
distinct "Installation cancelled" failure. -/
def runInstallerStep (st : InstallerState) (e : InstallerEvent) : InstallerState :=
  match e with
  | InstallerEvent.stdoutData s => { st with stdout := st.stdout ++ s }
  | InstallerEvent.stderrData s => { st with stderr := st.stderr ++ s }
  | InstallerEvent.procError message =>
      iResolve st { success := false, exitCode := Option.none,
                    stdout := st.stdout, stderr := st.stderr, error := some message }
  | InstallerEvent.procClose code =>
      iResolve st { success := decide (code = some 0), exitCode := code,
                    stdout := st.stdout, stderr := st.stderr, error := Option.none }
  | InstallerEvent.cancelFire =>
      iResolve st { success := false, exitCode := Option.none,
                    stdout := st.stdout, stderr := st.stderr,
                    error := some "Installation cancelled" }

/-- The state when `runInstaller` spawns the process. -/
def initInstallerState : InstallerState :=
  { stdout := "", stderr := "", resolved := Option.none }

/-- A whole `runInstaller` run over its event sequence. -/
def runInstallerEvents (es : List InstallerEvent) : InstallerState :=
  es.foldl runInstallerStep initInstallerState

/-- The result the close handler resolves with (for a pre-resolution state). -/
def closeResult (st : InstallerState) (code : Option Int) : InstallerResult :=
  { success := decide (code = some 0), exitCode := code,
    stdout := st.stdout, stderr := st.stderr, error := Option.none }

/-- The result the cancellation handler resolves with. -/
def cancelResult (st : InstallerState) : InstallerResult :=
  { success := false, exitCode := Option.none,
    stdout := st.stdout, stderr := st.stderr, error := some "Installation cancelled" }

/- ## Theorems -/

theorem getStatus_update (m : StatusMap) (pid : String) (st : McpStatus)
    (tools : Option (List String)) (err : Option String) (now : Int) (id : String) :
    getStatus (updateMcpStatus m pid st tools err now) id =
      if id = pid then st else getStatus m id := by
  unfold getStatus updateMcpStatus
  by_cases h : id = pid <;> simp [h]

theorem getStatus_clearOther (m : StatusMap) (cur : String) (id : String) :
    getStatus (clearOtherVerifiedStatuses m cur) id =
      if id ≠ cur ∧ getStatus m id = McpStatus.verified then McpStatus.none
      else getStatus m id := by
  unfold getStatus clearOtherVerifiedStatuses
  cases hm : m id with
  | none => simp
  | some s =>
      by_cases h : id ≠ cur ∧ s.status = McpStatus.verified
      · simp [h]
      · simp [h]

theorem getStatus_markVerified (m : StatusMap) (pid : String) (tools : List String)
    (now : Int) (id : String) :
    getStatus (markMcpVerified m pid tools now) id =
      if id = pid then McpStatus.verified
      else if getStatus m id = McpStatus.verified then McpStatus.none
      else getStatus m id := by
  unfold markMcpVerified
  rw [getStatus_update, getStatus_clearOther]
  by_cases h : id = pid
  · simp [h]
  · simp [h]

/-- Claim C1: the persisted MCP status map has at most one `verified` entry after
every `markMcpVerifying`, `markMcpVerified` and `markMcpFailed` operation, and
`markMcpVerified P` followed by `markMcpVerified Q` (with `P ≠ Q`) leaves `Q` as the
only verified entry while `P` is demoted to `none`. -/
theorem single_verified_invariant (m : StatusMap) (now now' : Int)
    (P Q pid err : String) (tools tools' failTools : List String)
    (hInv : atMostOneVerified m) (hPQ : P ≠ Q) :
    atMostOneVerified (markMcpVerifying m pid now)
    ∧ atMostOneVerified (markMcpFailed m pid err now)
    ∧ atMostOneVerified (markMcpVerified m pid failTools now)
    ∧ getStatus (markMcpVerified (markMcpVerified m P tools now) Q tools' now') Q
        = McpStatus.verified
    ∧ getStatus (markMcpVerified (markMcpVerified m P tools now) Q tools' now') P
        = McpStatus.none
    ∧ (∀ r, getStatus (markMcpVerified (markMcpVerified m P tools now) Q tools' now') r
          = McpStatus.verified → r = Q) := by
  refine ⟨?_, ?_, ?_, ?_, ?_, ?_⟩
  · intro p q hp hq
    rw [markMcpVerifying, getStatus_update] at hp hq
    by_cases hp' : p = pid
    · simp [hp'] at hp
    · by_cases hq' : q = pid
      · simp [hq'] at hq
      · simp [hp'] at hp
        simp [hq'] at hq
        exact hInv p q hp hq
  · intro p q hp hq
    rw [markMcpFailed, getStatus_update] at hp hq
    by_cases hp' : p = pid
    · simp [hp'] at hp
    · by_cases hq' : q = pid
      · simp [hq'] at hq
      · simp [hp'] at hp
        simp [hq'] at hq
        exact hInv p q hp hq
  · intro p q hp hq
    rw [getStatus_markVerified] at hp hq
    by_cases hp' : p = pid
    · by_cases hq' : q = pid
      · rw [hp', hq']
      · simp [hq'] at hq
        by_cases hv : getStatus m q = McpStatus.verified <;> simp [hv] at hq
    · simp [hp'] at hp
      by_cases hv : getStatus m p = McpStatus.verified <;> simp [hv] at hp
  · rw [getStatus_markVerified]
    simp
  · rw [getStatus_markVerified]
    have hPQ' : ¬ (P = Q) := hPQ
    simp [hPQ']
    rw [getStatus_markVerified]
    simp
  · intro r hr
    rw [getStatus_markVerified] at hr
    by_cases h : r = Q
    · exact h
    · simp [h] at hr
      by_cases hv : getStatus (markMcpVerified m P tools now) r = McpStatus.verified <;>
        simp [hv] at hr

theorem single_verified_invariant_witness :
    atMostOneVerified (markMcpVerifying emptyStatusMap "x" 0)
    ∧ atMostOneVerified (markMcpFailed emptyStatusMap "x" "err" 0)
    ∧ atMostOneVerified (markMcpVerified emptyStatusMap "x" ["t"] 0)
    ∧ getStatus (markMcpVerified (markMcpVerified emptyStatusMap "p" ["t1"] 0) "q" ["t2"] 1) "q"
        = McpStatus.verified
    ∧ getStatus (markMcpVerified (markMcpVerified emptyStatusMap "p" ["t1"] 0) "q" ["t2"] 1) "p"
        = McpStatus.none
    ∧ (∀ r, getStatus (markMcpVerified (markMcpVerified emptyStatusMap "p" ["t1"] 0) "q" ["t2"] 1) r
          = McpStatus.verified → r = "q") := by
  have hInv : atMostOneVerified emptyStatusMap := by
    intro p q hp _
    simp [getStatus, emptyStatusMap] at hp
  have h := single_verified_invariant emptyStatusMap 0 1 "p" "q" "x" "err"
    ["t1"] ["t2"] ["t"] hInv (by decide)
  exact h

/-- Claim C2: for every callback whose `state` query parameter differs from the
state generated for this login attempt, the token exchange is never invoked and
the flow resolves to `null`. -/
theorem state_mismatch_no_exchange (state : String) (code returnedState error : Option String)
    (hMismatch : returnedState ≠ some state) :
    invokesTokenExchange (handleCallback state code returnedState error) = false
    ∧ resolvesNull (handleCallback state code returnedState error) = true := by
  unfold handleCallback
  by_cases he : truthyStr error = true
  · simp [he, invokesTokenExchange, resolvesNull]
  · simp at he
    simp [he, hMismatch, invokesTokenExchange, resolvesNull]

theorem state_mismatch_no_exchange_witness :
    invokesTokenExchange (handleCallback "s1" (some "authcode") (some "s2") Option.none) = false
    ∧ resolvesNull (handleCallback "s1" (some "authcode") (some "s2") Option.none) = true :=
  state_mismatch_no_exchange "s1" (some "authcode") (some "s2") Option.none (by decide)

/-- Claim C3 (amended): `isAuthenticated` is false whenever no truthy access
token is stored (absent or the reachable stored empty string, which the
`if (!token)` truthiness guard treats as absent); with a stored nonempty token
whose expiry window has been entered, exactly one refresh is attempted, and a
failed refresh leaves the fully cleared auth state (no partially cleared state)
and returns false. -/
theorem isAuthenticated_clears_fully (st : AuthState) (now : Int) (net : FetchOutcome)
    (tok : String) (expiry : Int)
    (hTok : st.accessToken = some tok) (hNE : tok ≠ "")
    (hExp : st.tokenExpiry = some expiry) (hNZ : expiry ≠ 0)
    (hNear : now > expiry - 30000)
    (hFail : (refreshAccessToken st now net).1 = false) :
    (∀ s : AuthState, truthyStr s.accessToken = false →
        isAuthenticated s now net = (false, s, 0))
    ∧ (isAuthenticated st now net).2.2 = 1
    ∧ isAuthenticated st now net = (false, clearedAuthState, 1) := by
  have hexp : isTokenExpired st now = true := by
    unfold isTokenExpired
    rw [hExp]
    simp [hNZ, hNear]
  have htr : truthyStr st.accessToken = true := by
    rw [hTok]
    simp [truthyStr, hNE]
  have hst : refreshAccessToken st now net = (false, (refreshAccessToken st now net).2) := by
    cases h : refreshAccessToken st now net with
    | mk b s =>
      rw [h] at hFail
      simp at hFail
      rw [hFail]
  refine ⟨?_, ?_, ?_⟩
  · intro s hs
    unfold isAuthenticated
    simp [hs]
  · unfold isAuthenticated
    rw [htr]
    simp [hexp]
    rw [hst]
  · unfold isAuthenticated
    rw [htr]
    simp [hexp]
    rw [hst]
    simp [clearAuth, clearedAuthState]

theorem isAuthenticated_clears_fully_witness :
    (∀ s : AuthState, truthyStr s.accessToken = false →
        isAuthenticated s 1000000 FetchOutcome.httpError = (false, s, 0))
    ∧ (isAuthenticated
        { accessToken := some "a", refreshToken := Option.none,
          userData := Option.none, tokenExpiry := some 100 }
        1000000 FetchOutcome.httpError).2.2 = 1
    ∧ isAuthenticated
        { accessToken := some "a", refreshToken := Option.none,
          userData := Option.none, tokenExpiry := some 100 }
        1000000 FetchOutcome.httpError = (false, clearedAuthState, 1) :=
  isAuthenticated_clears_fully
    { accessToken := some "a", refreshToken := Option.none,
      userData := Option.none, tokenExpiry := some 100 }
    1000000 FetchOutcome.httpError "a" 100 (by decide) (by decide) (by decide)
    (by decide) (by decide) (by decide)

/-- Counterexample to claim C3 as stated: at a reachable state holding the
stored empty-string access token with an already-expired stored expiry, the
source returns false having attempted zero refreshes, with the auth state left
untouched rather than cleared — contradicting "exactly one refresh is
attempted" and the full clearing the claim asserts for every stored token. -/
theorem isAuthenticated_empty_token_counterexample :
    c3State.accessToken = some ""
    ∧ isTokenExpired c3State 1000000 = true
    ∧ isAuthenticated c3State 1000000 FetchOutcome.httpError = (false, c3State, 0)
    ∧ c3State ≠ clearedAuthState := by
  decide

/-- Claim C10 (amended): with an access token stored but no expiry timestamp
stored, the token is treated as not expired, and for every truthy (nonempty)
stored token value `isAuthenticated` returns true with no refresh attempted;
the reachable stored empty string is treated as absent by the `if (!token)`
truthiness guard and yields false instead. -/
theorem no_expiry_means_not_expired (st : AuthState) (now : Int) (net : FetchOutcome)
    (tok : String)
    (hTok : st.accessToken = some tok) (hNE : tok ≠ "")
    (hExp : st.tokenExpiry = Option.none) :
    isTokenExpired st now = false
    ∧ isAuthenticated st now net = (true, st, 0) := by
  have hexp : isTokenExpired st now = false := by
    unfold isTokenExpired
    rw [hExp]
  have htr : truthyStr st.accessToken = true := by
    rw [hTok]
    simp [truthyStr, hNE]
  refine ⟨hexp, ?_⟩
  unfold isAuthenticated
  rw [htr]
  simp [hexp]

theorem no_expiry_means_not_expired_witness :
    isTokenExpired
      { accessToken := some "tok", refreshToken := some "r",
        userData := Option.none, tokenExpiry := Option.none } 999999999 = false
    ∧ isAuthenticated
        { accessToken := some "tok", refreshToken := some "r",
          userData := Option.none, tokenExpiry := Option.none } 999999999
        FetchOutcome.httpError
      = (true,
         { accessToken := some "tok", refreshToken := some "r",
           userData := Option.none, tokenExpiry := Option.none }, 0) :=
  no_expiry_means_not_expired
    { accessToken := some "tok", refreshToken := some "r",
      userData := Option.none, tokenExpiry := Option.none }
    999999999 FetchOutcome.httpError "tok" (by decide) (by decide) (by decide)

/-- Counterexample to claim C10 as stated: the claim quantifies over every
stored token value, but at the reachable stored empty-string token with no
expiry stored the source returns false (the `if (!token)` truthiness guard
fires), not true. -/
theorem no_expiry_empty_token_counterexample :
    c10State.accessToken = some ""
    ∧ c10State.tokenExpiry = Option.none
    ∧ isAuthenticated c10State 5 FetchOutcome.httpError = (false, c10State, 0) := by
  decide

/-- Counterexample to claim C5 as stated: after `logout` the persisted expiry
timestamp is still present in storage (only `clearAuth` removes it). -/
theorem logout_keeps_expiry_counterexample :
    (logout c5State).accessToken = Option.none
    ∧ (logout c5State).refreshToken = Option.none
    ∧ (logout c5State).tokenExpiry = some 12345
    ∧ (logout c5State).tokenExpiry ≠ Option.none := by
  decide

/-- Claim C5 (amended): after `logout`, the access token, refresh token and
stored profile are all absent from storage, but the persisted expiry timestamp
is left exactly as it was; the full clearing (including the expiry) is what
`clearAuth` performs. -/
theorem logout_clears_tokens (st : AuthState) :
    (logout st).accessToken = Option.none
    ∧ (logout st).refreshToken = Option.none
    ∧ (logout st).userData = Option.none
    ∧ (logout st).tokenExpiry = st.tokenExpiry
    ∧ clearAuth st = clearedAuthState := by
  refine ⟨rfl, rfl, rfl, rfl, rfl⟩

/-- Counterexample to claim C6 as stated: this refresh-token exchange succeeds
(returns true and stores the new access token) yet the stored expiry timestamp
is not updated — it keeps its old value because the response omits `expires_in`. -/
theorem refresh_expiry_not_updated_counterexample :
    (refreshAccessToken c6State 500000 (FetchOutcome.ok c6Tokens)).1 = true
    ∧ (refreshAccessToken c6State 500000 (FetchOutcome.ok c6Tokens)).2.accessToken
        = some "newtok"
    ∧ (refreshAccessToken c6State 500000 (FetchOutcome.ok c6Tokens)).2.tokenExpiry
        = c6State.tokenExpiry := by
  decide

/-- Claim C6 (amended): every successful refresh-token exchange stores the new
access token; the stored expiry is updated exactly when the response carries a
truthy (present, nonzero) `expires_in` and is otherwise left unchanged; the
stored refresh token is replaced exactly when the response carries a truthy
(present, nonempty) refresh token and is otherwise kept. -/
theorem refresh_success_updates (st : AuthState) (now : Int) (tokens : TokenResponse)
    (hRT : st.refreshToken.isSome = true) (hErr : truthyStr tokens.error = false) :
    (refreshAccessToken st now (FetchOutcome.ok tokens)).1 = true
    ∧ (refreshAccessToken st now (FetchOutcome.ok tokens)).2.accessToken
        = some tokens.access_token
    ∧ (refreshAccessToken st now (FetchOutcome.ok tokens)).2.refreshToken
        = (if truthyStr tokens.refresh_token then tokens.refresh_token
           else st.refreshToken)
    ∧ (refreshAccessToken st now (FetchOutcome.ok tokens)).2.tokenExpiry
        = (if truthyInt tokens.expires_in then
             some (now + (tokens.expires_in.getD 0) * 1000)
           else st.tokenExpiry) := by
  cases hrt : st.refreshToken with
  | none => rw [hrt] at hRT; simp at hRT
  | some rt =>
    unfold refreshAccessToken
    rw [hrt]
    simp only [hErr, Bool.false_eq_true, if_false]
    by_cases h1 : truthyStr tokens.refresh_token = true
    · by_cases h2 : truthyInt tokens.expires_in = true
      · simp [h1, h2]
      · simp at h2
        simp [h1, h2]
    · simp at h1
      by_cases h2 : truthyInt tokens.expires_in = true
      · simp [h1, h2]
      · simp at h2
        simp [h1, h2]

theorem refresh_success_updates_witness :
    (refreshAccessToken c6State 500000 (FetchOutcome.ok c6Tokens)).1 = true
    ∧ (refreshAccessToken c6State 500000 (FetchOutcome.ok c6Tokens)).2.accessToken
        = some c6Tokens.access_token
    ∧ (refreshAccessToken c6State 500000 (FetchOutcome.ok c6Tokens)).2.refreshToken
        = (if truthyStr c6Tokens.refresh_token then c6Tokens.refresh_token
           else c6State.refreshToken)
    ∧ (refreshAccessToken c6State 500000 (FetchOutcome.ok c6Tokens)).2.tokenExpiry
        = (if truthyInt c6Tokens.expires_in then
             some ((500000 : Int) + (c6Tokens.expires_in.getD 0) * 1000)
           else c6State.tokenExpiry) :=
  refresh_success_updates c6State 500000 c6Tokens (by decide) (by decide)

theorem authenticatedFetchAfter_401 (st1 : AuthState) (now : Int)
    (retryNet : FetchOutcome) (resp1 resp2 : HttpResponse) (pre : Nat) (tok : String)
    (hTok : st1.accessToken = some tok) (hNE : tok ≠ "") (h401 : resp1.status = 401) :
    (authenticatedFetchAfter st1 now retryNet resp1 resp2 pre).2.2.on401Refreshes = 1
    ∧ ((refreshAccessToken st1 now retryNet).1 = true →
        (authenticatedFetchAfter st1 now retryNet resp1 resp2 pre).1 = Except.ok resp2
        ∧ (authenticatedFetchAfter st1 now retryNet resp1 resp2 pre).2.2.bearerTokens
            = [tok, ((refreshAccessToken st1 now retryNet).2.accessToken.getD "")])
    ∧ ((refreshAccessToken st1 now retryNet).1 = false →
        (authenticatedFetchAfter st1 now retryNet resp1 resp2 pre).1
            = Except.error FetchError.unauthorized
        ∧ (authenticatedFetchAfter st1 now retryNet resp1 resp2 pre).2.1
            = clearedAuthState) := by
  unfold authenticatedFetchAfter
  rw [hTok]
  rw [if_neg (by simp [truthyStr, hNE])]
  simp only [Option.getD_some, h401, if_pos rfl]
  cases hr : refreshAccessToken st1 now retryNet with
  | mk ok st' =>
    cases ok with
    | true =>
        simp [handleUnauthorized, hr]
    | false =>
        simp [handleUnauthorized, hr, clearAuth, clearedAuthState]

/-- Claim C4: on any authenticated request that reaches the network (the expiry
pre-check either passed or its refresh succeeded, and the stored token is
truthy — a falsy token throws before any fetch, so no response exists) and
receives a 401, exactly one refresh is attempted in response to the 401; on
refresh success the request is retried exactly once with the newly stored token
and the retry's response is returned as-is (no further refresh); on refresh
failure the auth state is fully cleared and the `UNAUTHORIZED` error is
raised. -/
theorem authenticatedFetch_401_policy (st0 : AuthState) (now : Int)
    (preNet retryNet : FetchOutcome) (resp1 resp2 : HttpResponse)
    (st1 : AuthState) (tok : String)
    (hPre : (if isTokenExpired st0 now then (refreshAccessToken st0 now preNet).2
             else st0) = st1)
    (hReach : isTokenExpired st0 now = false ∨ (refreshAccessToken st0 now preNet).1 = true)
    (hTok : st1.accessToken = some tok) (hNE : tok ≠ "") (h401 : resp1.status = 401) :
    (authenticatedFetch st0 now preNet retryNet resp1 resp2).2.2.on401Refreshes = 1
    ∧ ((refreshAccessToken st1 now retryNet).1 = true →
        (authenticatedFetch st0 now preNet retryNet resp1 resp2).1 = Except.ok resp2
        ∧ (authenticatedFetch st0 now preNet retryNet resp1 resp2).2.2.bearerTokens
            = [tok, ((refreshAccessToken st1 now retryNet).2.accessToken.getD "")])
    ∧ ((refreshAccessToken st1 now retryNet).1 = false →
        (authenticatedFetch st0 now preNet retryNet resp1 resp2).1
            = Except.error FetchError.unauthorized
        ∧ (authenticatedFetch st0 now preNet retryNet resp1 resp2).2.1
            = clearedAuthState) := by
  have hbody : authenticatedFetch st0 now preNet retryNet resp1 resp2
      = authenticatedFetchAfter st1 now retryNet resp1 resp2
          (if isTokenExpired st0 now then 1 else 0) := by
    unfold authenticatedFetch
    cases hexp : isTokenExpired st0 now with
    | false =>
        rw [hexp] at hPre
        simp at hPre
        simp [hPre]
    | true =>
        rw [hexp] at hPre
        simp at hPre
        rcases hReach with hReach | hReach
        · rw [hexp] at hReach; exact absurd hReach (by simp)
        · cases hr : refreshAccessToken st0 now preNet with
          | mk ok st' =>
            rw [hr] at hReach hPre
            simp at hReach
            simp at hPre
            rw [hReach]
            simp [hPre]
  rw [hbody]
  exact authenticatedFetchAfter_401 st1 now retryNet resp1 resp2 _ tok hTok hNE h401

theorem authenticatedFetch_401_policy_witness :
    (authenticatedFetch
        { accessToken := some "tok", refreshToken := Option.none,
          userData := Option.none, tokenExpiry := Option.none }
        7 FetchOutcome.httpError FetchOutcome.httpError
        { status := 401, body := "first" } { status := 200, body := "second" }).2.2.on401Refreshes = 1
    ∧ ((refreshAccessToken
          { accessToken := some "tok", refreshToken := Option.none,
            userData := Option.none, tokenExpiry := Option.none }
          7 FetchOutcome.httpError).1 = true →
        (authenticatedFetch
          { accessToken := some "tok", refreshToken := Option.none,
            userData := Option.none, tokenExpiry := Option.none }
          7 FetchOutcome.httpError FetchOutcome.httpError
          { status := 401, body := "first" } { status := 200, body := "second" }).1
            = Except.ok { status := 200, body := "second" }
        ∧ (authenticatedFetch
            { accessToken := some "tok", refreshToken := Option.none,
              userData := Option.none, tokenExpiry := Option.none }
            7 FetchOutcome.httpError FetchOutcome.httpError
            { status := 401, body := "first" } { status := 200, body := "second" }).2.2.bearerTokens
            = ["tok", ((refreshAccessToken
                { accessToken := some "tok", refreshToken := Option.none,
                  userData := Option.none, tokenExpiry := Option.none }
                7 FetchOutcome.httpError).2.accessToken.getD "")])
    ∧ ((refreshAccessToken
          { accessToken := some "tok", refreshToken := Option.none,
            userData := Option.none, tokenExpiry := Option.none }
          7 FetchOutcome.httpError).1 = false →
        (authenticatedFetch
          { accessToken := some "tok", refreshToken := Option.none,
            userData := Option.none, tokenExpiry := Option.none }
          7 FetchOutcome.httpError FetchOutcome.httpError
          { status := 401, body := "first" } { status := 200, body := "second" }).1
            = Except.error FetchError.unauthorized
        ∧ (authenticatedFetch
            { accessToken := some "tok", refreshToken := Option.none,
              userData := Option.none, tokenExpiry := Option.none }
            7 FetchOutcome.httpError FetchOutcome.httpError
            { status := 401, body := "first" } { status := 200, body := "second" }).2.1
            = clearedAuthState) :=
  authenticatedFetch_401_policy
    { accessToken := some "tok", refreshToken := Option.none,
      userData := Option.none, tokenExpiry := Option.none }
    7 FetchOutcome.httpError FetchOutcome.httpError
    { status := 401, body := "first" } { status := 200, body := "second" }
    { accessToken := some "tok", refreshToken := Option.none,
      userData := Option.none, tokenExpiry := Option.none }
    "tok" (by decide) (Or.inl (by decide)) (by decide) (by decide) (by decide)

theorem verifyAttempts_never_found (configPath : Option String) (fileExists : Nat → Bool)
    (readCreds : Nat → Option Credentials) (connTest : Nat → McpVerificationResult)
    (delayMs : Nat)
    (hNoFile : ∀ a, fileExists a = false) (hNoCreds : ∀ a, readCreds a = Option.none) :
    ∀ n attempt s, s.configFileFound = false →
      verifyAttempts configPath fileExists readCreds connTest delayMs attempt n s =
        (Option.none,
         { configFileFound := false, credentialsFound := s.credentialsFound,
           lastError := if n = 0 then s.lastError else notFoundMsg configPath,
           sleeps := s.sleeps ++ List.replicate n delayMs,
           connTests := s.connTests }) := by
  intro n
  induction n with
  | zero =>
      intro attempt s hs
      unfold verifyAttempts
      cases s with
      | mk cf cr le sl ct =>
        simp at hs
        simp [hs]
  | succ r ih =>
      intro attempt s hs
      simp only [verifyAttempts]
      rw [hNoCreds attempt]
      have hcond : ¬ (configPath.isSome ∧ fileExists attempt) := by
        rw [hNoFile attempt]
        simp
      simp only [hcond, if_false]
      rw [ih (attempt + 1) _ (by simp [hs])]
      cases s with
      | mk cf cr le sl ct =>
        simp at hs
        simp [hs, List.replicate_succ]

/-- Claim C7: for any non-codex client, `maxAttempts ≥ 1`, and oracles reporting
the config file absent (no file, no credentials) on every attempt, the loop
sleeps `delayMs` before every attempt including the first, performs exactly
`maxAttempts` attempts, never invokes `testMcpConnection`, and fails with the
"config file not found at path" diagnostic (chosen because the file-found flag
never became true). -/
theorem verifyFromConfig_file_never_found (clientId : String) (configPath : Option String)
    (fileExists : Nat → Bool) (readCreds : Nat → Option Credentials)
    (connTest : Nat → McpVerificationResult) (maxAttempts delayMs : Nat)
    (hClient : clientId ≠ "codex") (_hMax : 1 ≤ maxAttempts)
    (hNoFile : ∀ a, fileExists a = false) (hNoCreds : ∀ a, readCreds a = Option.none) :
    (verifyFromConfig clientId configPath fileExists readCreds connTest
        maxAttempts delayMs).2.sleeps = List.replicate maxAttempts delayMs
    ∧ (verifyFromConfig clientId configPath fileExists readCreds connTest
        maxAttempts delayMs).2.sleeps.length = maxAttempts
    ∧ (verifyFromConfig clientId configPath fileExists readCreds connTest
        maxAttempts delayMs).2.connTests = 0
    ∧ (verifyFromConfig clientId configPath fileExists readCreds connTest
        maxAttempts delayMs).1.success = false
    ∧ (verifyFromConfig clientId configPath fileExists readCreds connTest
        maxAttempts delayMs).1.error
        = some (notFoundMsg configPath
            ++ ". The installer may have written to a different location.") := by
  have hrun := verifyAttempts_never_found configPath fileExists readCreds connTest delayMs
    hNoFile hNoCreds maxAttempts 1 initLoopState (by rfl)
  unfold verifyFromConfig
  simp only [hClient, if_false]
  rw [hrun]
  simp [initLoopState]

theorem verifyFromConfig_file_never_found_witness :
    (verifyFromConfig "cursor" (some "/home/u/.cursor/mcp.json")
        (fun _ => false) (fun _ => Option.none)
        (fun _ => { success := false, tools := Option.none, error := Option.none })
        5 0).2.sleeps = List.replicate 5 0
    ∧ (verifyFromConfig "cursor" (some "/home/u/.cursor/mcp.json")
        (fun _ => false) (fun _ => Option.none)
        (fun _ => { success := false, tools := Option.none, error := Option.none })
        5 0).2.sleeps.length = 5
    ∧ (verifyFromConfig "cursor" (some "/home/u/.cursor/mcp.json")
        (fun _ => false) (fun _ => Option.none)
        (fun _ => { success := false, tools := Option.none, error := Option.none })
        5 0).2.connTests = 0
    ∧ (verifyFromConfig "cursor" (some "/home/u/.cursor/mcp.json")
        (fun _ => false) (fun _ => Option.none)
        (fun _ => { success := false, tools := Option.none, error := Option.none })
        5 0).1.success = false
    ∧ (verifyFromConfig "cursor" (some "/home/u/.cursor/mcp.json")
        (fun _ => false) (fun _ => Option.none)
        (fun _ => { success := false, tools := Option.none, error := Option.none })
        5 0).1.error
        = some (notFoundMsg (some "/home/u/.cursor/mcp.json")
            ++ ". The installer may have written to a different location.") :=
  verifyFromConfig_file_never_found "cursor" (some "/home/u/.cursor/mcp.json")
    (fun _ => false) (fun _ => Option.none)
    (fun _ => { success := false, tools := Option.none, error := Option.none })
    5 0 (by decide) (by decide) (fun _ => rfl) (fun _ => rfl)

theorem maybeResolve_after_resolved (st : VerifierState) (o : Option McpVerificationResult)
    (h : st.resolved = true) :
    (maybeResolve st o).resolved = true
    ∧ (maybeResolve st o).result = st.result
    ∧ (maybeResolve st o).resolveCount = st.resolveCount := by
  cases o with
  | none => exact ⟨h, rfl, rfl⟩
  | some r => simp [maybeResolve, vResolve, h]

theorem step_after_resolved (parseLine : String → LineClass) (st : VerifierState)
    (e : McpEvent) (h : st.resolved = true) :
    (testMcpConnectionStep parseLine st e).resolved = true
    ∧ (testMcpConnectionStep parseLine st e).result = st.result
    ∧ (testMcpConnectionStep parseLine st e).resolveCount = st.resolveCount := by
  cases e with
  | stdoutData s =>
      unfold testMcpConnectionStep
      exact maybeResolve_after_resolved _ _ h
  | stderrData s =>
      unfold testMcpConnectionStep
      by_cases hc : stderrSignalsError s = true
      · simp [hc, vResolve, h]
      · simp at hc
        simp [hc, h]
  | procError m =>
      unfold testMcpConnectionStep
      simp [vResolve, h]
  | procExit code =>
      unfold testMcpConnectionStep
      by_cases hc : code = some 0
      · simp [hc, h]
      · simp [hc, vResolve, h]
  | timeoutFire =>
      unfold testMcpConnectionStep
      simp [vResolve, h]

theorem foldl_after_resolved (parseLine : String → LineClass) (es : List McpEvent) :
    ∀ st : VerifierState, st.resolved = true →
      (es.foldl (testMcpConnectionStep parseLine) st).resolved = true
      ∧ (es.foldl (testMcpConnectionStep parseLine) st).result = st.result
      ∧ (es.foldl (testMcpConnectionStep parseLine) st).resolveCount = st.resolveCount := by
  induction es with
  | nil => intro st h; exact ⟨h, rfl, rfl⟩
  | cons e es ih =>
      intro st h
      have hstep := step_after_resolved parseLine st e h
      have hrest := ih (testMcpConnectionStep parseLine st e) hstep.1
      rw [List.foldl_cons]
      refine ⟨hrest.1, ?_, ?_⟩
      · rw [hrest.2.1, hstep.2.1]
      · rw [hrest.2.2, hstep.2.2]

theorem maybeResolve_count_shape (st : VerifierState) (o : Option McpVerificationResult)
    (h : st.resolved = false) :
    ((maybeResolve st o).resolved = false
      ∧ (maybeResolve st o).resolveCount = st.resolveCount)
    ∨ ((maybeResolve st o).resolved = true
      ∧ (maybeResolve st o).resolveCount = st.resolveCount + 1) := by
  cases o with
  | none => left; exact ⟨h, rfl⟩
  | some r => right; simp [maybeResolve, vResolve, h]

theorem step_count_shape (parseLine : String → LineClass) (st : VerifierState)
    (e : McpEvent) (h : st.resolved = false) :
    ((testMcpConnectionStep parseLine st e).resolved = false
      ∧ (testMcpConnectionStep parseLine st e).resolveCount = st.resolveCount)
    ∨ ((testMcpConnectionStep parseLine st e).resolved = true
      ∧ (testMcpConnectionStep parseLine st e).resolveCount = st.resolveCount + 1) := by
  cases e with
  | stdoutData s =>
      unfold testMcpConnectionStep
      exact maybeResolve_count_shape _ _ h
  | stderrData s =>
      unfold testMcpConnectionStep
      by_cases hc : stderrSignalsError s = true
      · right; simp [hc, vResolve, h]
      · left
        simp at hc
        simp [hc, h]
  | procError m =>
      unfold testMcpConnectionStep
      right; simp [vResolve, h]
  | procExit code =>
      unfold testMcpConnectionStep
      by_cases hc : code = some 0
      · left; simp [hc, h]
      · right; simp [hc, vResolve, h]
  | timeoutFire =>
      unfold testMcpConnectionStep
      right; simp [vResolve, h]

theorem foldl_count_invariant (parseLine : String → LineClass) (es : List McpEvent) :
    ∀ st : VerifierState,
      (st.resolved = false → st.resolveCount = 0) →
      (st.resolved = true → st.resolveCount = 1) →
      (es.foldl (testMcpConnectionStep parseLine) st).resolveCount ≤ 1 := by
  induction es with
  | nil =>
      intro st h0 h1
      cases hs : st.resolved with
      | false => simp [h0 hs]
      | true => simp [h1 hs]
  | cons e es ih =>
      intro st h0 h1
      rw [List.foldl_cons]
      cases hs : st.resolved with
      | true =>
          have hstep := step_after_resolved parseLine st e hs
          exact ih _ (fun hh => by rw [hh] at hstep; exact absurd hstep.1 (by simp))
            (fun _ => by rw [hstep.2.2, h1 hs])
      | false =>
          have hstep := step_count_shape parseLine st e hs
          rcases hstep with ⟨hr, hc⟩ | ⟨hr, hc⟩
          · exact ih _ (fun _ => by rw [hc, h0 hs]) (fun hh => by rw [hh] at hr; cases hr)
          · exact ih _ (fun hh => by rw [hh] at hr; cases hr)
              (fun _ => by rw [hc, h0 hs])

/-- Claim C8: `testMcpConnection` resolves exactly once. If a prefix of the event
sequence has resolved the promise with result `r`, every continuation leaves the
result `r` and performs no further resolution, and over any event sequence the
number of `resolve` calls is at most one. -/
theorem testMcpConnection_single_resolve (parseLine : String → LineClass)
    (es₁ es₂ : List McpEvent) (r : McpVerificationResult)
    (h : (testMcpConnectionRun parseLine es₁).result = some r)
    (hres : (testMcpConnectionRun parseLine es₁).resolved = true) :
    (testMcpConnectionRun parseLine (es₁ ++ es₂)).result = some r
    ∧ (testMcpConnectionRun parseLine (es₁ ++ es₂)).resolveCount
        = (testMcpConnectionRun parseLine es₁).resolveCount
    ∧ (∀ es : List McpEvent, (testMcpConnectionRun parseLine es).resolveCount ≤ 1) := by
  have hsplit : testMcpConnectionRun parseLine (es₁ ++ es₂)
      = es₂.foldl (testMcpConnectionStep parseLine) (testMcpConnectionRun parseLine es₁) := by
    unfold testMcpConnectionRun
    rw [List.foldl_append]
  have hrest := foldl_after_resolved parseLine es₂ (testMcpConnectionRun parseLine es₁) hres
  refine ⟨?_, ?_, ?_⟩
  · rw [hsplit, hrest.2.1, h]
  · rw [hsplit, hrest.2.2]
  · intro es
    exact foldl_count_invariant parseLine es initVerifierState
      (fun _ => rfl) (fun hh => by simp [initVerifierState] at hh)

theorem testMcpConnection_single_resolve_witness :
    (testMcpConnectionRun (fun _ => LineClass.otherLine)
        ([McpEvent.timeoutFire] ++ [McpEvent.procExit (some 3), McpEvent.timeoutFire])).result
      = some { success := false, tools := Option.none, error := some "Connection timeout" }
    ∧ (testMcpConnectionRun (fun _ => LineClass.otherLine)
        ([McpEvent.timeoutFire] ++ [McpEvent.procExit (some 3), McpEvent.timeoutFire])).resolveCount
      = (testMcpConnectionRun (fun _ => LineClass.otherLine) [McpEvent.timeoutFire]).resolveCount
    ∧ (∀ es : List McpEvent,
        (testMcpConnectionRun (fun _ => LineClass.otherLine) es).resolveCount ≤ 1) :=
  testMcpConnection_single_resolve (fun _ => LineClass.otherLine)
    [McpEvent.timeoutFire] [McpEvent.procExit (some 3), McpEvent.timeoutFire]
    { success := false, tools := Option.none, error := some "Connection timeout" }
    (by rfl) (by rfl)

theorem iResolve_cases (st : InstallerState) (r' r : InstallerResult)
    (h : (iResolve st r').resolved = some r) :
    st.resolved = some r ∨ (st.resolved = Option.none ∧ r = r') := by
  unfold iResolve at h
  cases hres : st.resolved with
  | some r0 =>
      simp [hres] at h
      left
      exact congrArg some h
  | none =>
      simp [hres] at h
      right
      exact ⟨rfl, h.symm⟩

theorem runInstallerStep_resolved_inv (st : InstallerState) (e : InstallerEvent)
    (h : ∀ r, st.resolved = some r →
      (r.success = true ↔ (r.exitCode = some 0 ∧ r.error = Option.none))) :
    ∀ r, (runInstallerStep st e).resolved = some r →
      (r.success = true ↔ (r.exitCode = some 0 ∧ r.error = Option.none)) := by
  intro r hr
  cases e with
  | stdoutData s => exact h r hr
  | stderrData s => exact h r hr
  | procError m =>
      unfold runInstallerStep at hr
      rcases iResolve_cases st _ r hr with hold | ⟨_, heq⟩
      · exact h r hold
      · rw [heq]; simp
  | procClose code =>
      unfold runInstallerStep at hr
      rcases iResolve_cases st _ r hr with hold | ⟨_, heq⟩
      · exact h r hold
      · rw [heq]
        by_cases hc : code = some 0 <;> simp [hc]
  | cancelFire =>
      unfold runInstallerStep at hr
      rcases iResolve_cases st _ r hr with hold | ⟨_, heq⟩
      · exact h r hold
      · rw [heq]; simp

theorem runInstallerEvents_resolved_inv (es : List InstallerEvent) :
    ∀ st : InstallerState,
      (∀ r, st.resolved = some r →
        (r.success = true ↔ (r.exitCode = some 0 ∧ r.error = Option.none))) →
      ∀ r, (es.foldl runInstallerStep st).resolved = some r →
        (r.success = true ↔ (r.exitCode = some 0 ∧ r.error = Option.none)) := by
  induction es with
  | nil => intro st h; exact h
  | cons e es ih =>
      intro st h
      rw [List.foldl_cons]
      exact ih _ (runInstallerStep_resolved_inv st e h)

/-- Claim C9: `runInstaller` resolves success exactly when the process closes
with exit code 0 (a close-resolution carries the code and no `error` marker); a
cancellation firing before any resolution resolves the distinct
"Installation cancelled" failure with no exit code, which differs from every
close-derived result; and in any whole run, the resolved result has
`success = true` iff it records a clean exit (exit code 0, no error marker). -/
theorem runInstaller_exit_and_cancel (st st' : InstallerState) (code : Option Int)
    (rClose rCancel : InstallerResult)
    (hst : st.resolved = Option.none) (hst' : st'.resolved = Option.none)
    (hClose : (runInstallerStep st (InstallerEvent.procClose code)).resolved = some rClose)
    (hCancel : (runInstallerStep st' InstallerEvent.cancelFire).resolved = some rCancel) :
    (rClose.success = true ↔ code = some 0)
    ∧ rClose.exitCode = code
    ∧ rClose.error = Option.none
    ∧ rCancel.success = false
    ∧ rCancel.exitCode = Option.none
    ∧ rCancel.error = some "Installation cancelled"
    ∧ rCancel ≠ rClose
    ∧ (∀ (es : List InstallerEvent) (r : InstallerResult),
        (runInstallerEvents es).resolved = some r →
        (r.success = true ↔ (r.exitCode = some 0 ∧ r.error = Option.none))) := by
  unfold runInstallerStep at hClose hCancel
  have heqC : rClose = closeResult st code := by
    rcases iResolve_cases st _ rClose hClose with hold | ⟨_, heq⟩
    · rw [hst] at hold; cases hold
    · exact heq
  have heqK : rCancel = cancelResult st' := by
    rcases iResolve_cases st' _ rCancel hCancel with hold | ⟨_, heq⟩
    · rw [hst'] at hold; cases hold
    · exact heq
  refine ⟨?_, ?_, ?_, ?_, ?_, ?_, ?_, ?_⟩
  · rw [heqC]
    unfold closeResult
    by_cases hc : code = some 0 <;> simp [hc]
  · rw [heqC]; rfl
  · rw [heqC]; rfl
  · rw [heqK]; rfl
  · rw [heqK]; rfl
  · rw [heqK]; rfl
  · rw [heqK, heqC]
    intro hbad
    have hfields := congrArg InstallerResult.error hbad
    simp [cancelResult, closeResult] at hfields
  · intro es r hr
    exact runInstallerEvents_resolved_inv es initInstallerState
      (fun r0 hr0 => by simp [initInstallerState] at hr0) r hr

theorem runInstaller_exit_and_cancel_witness :
    (((closeResult { stdout := "out", stderr := "", resolved := Option.none } (some 0)).success
        = true) ↔ (some 0 : Option Int) = some 0)
    ∧ (closeResult { stdout := "out", stderr := "", resolved := Option.none } (some 0)).exitCode
        = some 0
    ∧ (closeResult { stdout := "out", stderr := "", resolved := Option.none } (some 0)).error
        = Option.none
    ∧ (cancelResult { stdout := "", stderr := "e", resolved := Option.none }).success = false
    ∧ (cancelResult { stdout := "", stderr := "e", resolved := Option.none }).exitCode
        = Option.none
    ∧ (cancelResult { stdout := "", stderr := "e", resolved := Option.none }).error
        = some "Installation cancelled"
    ∧ cancelResult { stdout := "", stderr := "e", resolved := Option.none }
        ≠ closeResult { stdout := "out", stderr := "", resolved := Option.none } (some 0)
    ∧ (∀ (es : List InstallerEvent) (r : InstallerResult),
        (runInstallerEvents es).resolved = some r →
        (r.success = true ↔ (r.exitCode = some 0 ∧ r.error = Option.none))) :=
  runInstaller_exit_and_cancel
    { stdout := "out", stderr := "", resolved := Option.none }
    { stdout := "", stderr := "e", resolved := Option.none }
    (some 0)
    (closeResult { stdout := "out", stderr := "", resolved := Option.none } (some 0))
    (cancelResult { stdout := "", stderr := "e", resolved := Option.none })
    (by rfl) (by rfl) (by rfl) (by rfl)

